import Mathlib

/-!
Verification development for the face verification backend.

The matching core lives in src/routes/verification.js:
`euclideanDistance`, `findBestMatch`, the per-student-descriptor
preference in the POST /:studentId route, and the threshold selection.
Subject verification state lives in src/routes/student.js together with
the schema in src/models/Student.js.

Numbers are modelled as exact reals (the spec mandates exact arithmetic
for the Distance Metric); JavaScript request values that can be absent or
of the wrong type are modelled explicitly where a claim depends on them.
-/

namespace FaceVerification

/-- Distance Metric, from `euclideanDistance` in src/routes/verification.js
(lines 162-170).  The source throws when either descriptor is null or the
lengths differ; descriptors are modelled as (non-null) lists, so only the
length guard remains.  The JS reduce walks `desc1` indexing into `desc2`,
which with equal lengths is the zipped sum of squared differences. -/
noncomputable def euclideanDistance (desc1 desc2 : List ℝ) : Except String ℝ :=
  if desc1.length = desc2.length then
    Except.ok (Real.sqrt (((desc1.zip desc2).map (fun p => (p.1 - p.2) ^ 2)).sum))
  else
    Except.error "Invalid descriptors for distance calculation"

/-- Result record of `findBestMatch` (field `match` is renamed `matched`
because `match` is reserved in Lean).  `distance` is `none` exactly when
the JS value is `null` (best distance still `Infinity`). -/
structure MatchResult where
  matched : Bool
  distance : Option ℝ
  confidence : ℝ

/-- One iteration of the `for (const groupDesc of groupDescriptors)` loop in
`findBestMatch` (src/routes/verification.js lines 183-194).  The state is
`(bestDistance, bestMatch)` with `none` standing for the initial
`Infinity`; a thrown distance error is caught and the loop continues with
the state unchanged. -/
noncomputable def stepMatch (capturedDescriptor : List ℝ) (threshold : ℝ)
    (st : Option ℝ × Bool) (groupDesc : List ℝ) : Option ℝ × Bool :=
  match euclideanDistance capturedDescriptor groupDesc, st.1 with
  | Except.error _, _ => st
  | Except.ok distance, none => (some distance, decide (distance < threshold))
  | Except.ok distance, some bestDistance =>
      if distance < bestDistance then (some distance, decide (distance < threshold))
      else st

/-- Match Resolver, from `findBestMatch` in src/routes/verification.js
(lines 175-201).  Empty reference list returns
`{match:false, distance:null, confidence:0}`; otherwise the loop above
runs and the JS `bestDistance === Infinity` checks become matches on the
optional best distance. -/
noncomputable def findBestMatch (capturedDescriptor : List ℝ)
    (groupDescriptors : List (List ℝ)) (threshold : ℝ) : MatchResult :=
  if groupDescriptors.length = 0 then
    ⟨false, none, 0⟩
  else
    let st := List.foldl (stepMatch capturedDescriptor threshold) (none, false) groupDescriptors
    ⟨st.2, st.1,
      match st.1 with
      | none => 0
      | some bestDistance => max 0 ((1 - bestDistance) * 100)⟩

/-- Helper (not in the source): the running minimum that the loop keeps in
`bestDistance`, with errors skipped exactly as in `stepMatch`. -/
noncomputable def minStep (capturedDescriptor : List ℝ)
    (o : Option ℝ) (groupDesc : List ℝ) : Option ℝ :=
  match euclideanDistance capturedDescriptor groupDesc, o with
  | Except.error _, _ => o
  | Except.ok distance, none => some distance
  | Except.ok distance, some bestDistance => some (min bestDistance distance)

/-- Loop invariant: the boolean part of the state is determined by the
best distance part. -/
def MatchInv (threshold : ℝ) (st : Option ℝ × Bool) : Prop :=
  (st.1 = none → st.2 = false) ∧
  ∀ b, st.1 = some b → st.2 = decide (b < threshold)

/-- Group reference status, from `groupDescriptorsStatus` in
src/models/School.js. -/
inductive RefStatus where
  | idle
  | processing
  | ready
  | error
deriving DecidableEq

/-- The slice of the School record that the verification route reads, from
src/models/School.js.  The status field is carried to show the route never
consults it. -/
structure School where
  groupDescriptors : List (List ℝ)
  groupDescriptorsStatus : RefStatus

/-- Reference selection and matching step of the POST /:studentId route,
src/routes/verification.js lines 283-295: when the student record carries a
`faceDescriptor` array of length exactly 128 the route compares against it
alone (and a thrown distance error propagates, caught only by the outer
500 handler, modelled as `Except.error`); otherwise it falls back to
`findBestMatch` over the school group descriptors. -/
noncomputable def verifyStudent (capturedDescriptor : List ℝ)
    (faceDescriptor : Option (List ℝ)) (school : School)
    (verificationThreshold : ℝ) : Except String MatchResult :=
  match faceDescriptor with
  | some fd =>
      if fd.length = 128 then
        match euclideanDistance capturedDescriptor fd with
        | Except.error e => Except.error e
        | Except.ok distance =>
            Except.ok ⟨decide (distance < verificationThreshold), some distance,
              max 0 ((1 - distance) * 100)⟩
      else
        Except.ok (findBestMatch capturedDescriptor school.groupDescriptors
          verificationThreshold)
  | none =>
      Except.ok (findBestMatch capturedDescriptor school.groupDescriptors
        verificationThreshold)

/-- A JavaScript request-body value, as far as the threshold selection is
concerned.  Finite numbers are modelled as exact rationals; NaN and the two
infinities are separate constructors because `typeof` and truthiness treat
them specially. -/
inductive JSValue where
  | num (x : ℚ)
  | nan
  | inf
  | negInf
  | str (s : String)
  | boolean (b : Bool)
  | null
  | undefined
deriving DecidableEq

/-- JavaScript truthiness for `JSValue` (0, NaN, empty string, false, null
and undefined are falsy). -/
def truthy : JSValue → Bool
  | JSValue.num x => decide (x ≠ 0)
  | JSValue.nan => false
  | JSValue.inf => true
  | JSValue.negInf => true
  | JSValue.str s => decide (s ≠ "")
  | JSValue.boolean b => b
  | JSValue.null => false
  | JSValue.undefined => false

/-- Whether `typeof v === "number"` holds (NaN and the infinities are of
number type in JavaScript). -/
def isNumberType : JSValue → Bool
  | JSValue.num _ => true
  | JSValue.nan => true
  | JSValue.inf => true
  | JSValue.negInf => true
  | _ => false

/-- Threshold selection of the POST /:studentId route,
src/routes/verification.js line 281:
`threshold && typeof threshold === "number" ? threshold : CONFIG.VERIFICATION_THRESHOLD`
with `CONFIG.VERIFICATION_THRESHOLD = 0.6` (line 22).  The route has no
failure path for the threshold. -/
def selectThreshold (threshold : JSValue) : JSValue :=
  if truthy threshold && isNumberType threshold then threshold
  else JSValue.num (6 / 10)

/-- Verification verdict enumeration shared by the global and per-day
scopes, from src/models/Student.js. -/
inductive VerifResult where
  | pending
  | success
  | failed
  | manually_verified
deriving DecidableEq

/-- One per-day verification entry, from `dayVerificationSchema` in
src/models/Student.js.  Confidence values are exact rationals and dates
are abstract instants (naturals). -/
structure DayEntry where
  result : VerifResult
  confidence : Option ℚ
  date : Option ℕ
deriving DecidableEq

/-- The six independent per-day entries, from the `dayVerification` field
of src/models/Student.js. -/
structure DayVerification where
  day1 : DayEntry
  day2 : DayEntry
  day3 : DayEntry
  day4 : DayEntry
  day5 : DayEntry
  day6 : DayEntry
deriving DecidableEq

/-- Lookup of `dayVerification[dayKey]` for `dayKey = "day" ++ n`; an
index outside 1..6 corresponds to an undefined property. -/
def getDay (dv : DayVerification) (n : ℕ) : Option DayEntry :=
  if n = 1 then some dv.day1
  else if n = 2 then some dv.day2
  else if n = 3 then some dv.day3
  else if n = 4 then some dv.day4
  else if n = 5 then some dv.day5
  else if n = 6 then some dv.day6
  else none

/-- Assignment `dayVerification[dayKey] = e`; the routes only reach it
after validating 1..6, so other indices leave the record unchanged. -/
def setDay (dv : DayVerification) (n : ℕ) (e : DayEntry) : DayVerification :=
  if n = 1 then { dv with day1 := e }
  else if n = 2 then { dv with day2 := e }
  else if n = 3 then { dv with day3 := e }
  else if n = 4 then { dv with day4 := e }
  else if n = 5 then { dv with day5 := e }
  else if n = 6 then { dv with day6 := e }
  else dv

/-- Subject verification state: the fields of the Student record that the
verification, manual-verify, reset and day-result routes read or write
(src/models/Student.js plus the route-level audit fields). -/
structure StudentState where
  verified : Bool
  verificationResult : VerifResult
  verificationConfidence : Option ℚ
  manuallyVerified : Bool
  manualVerificationDate : Option ℕ
  manualVerificationReason : Option String
  manualVerificationNotes : Option String
  lastResetDate : Option ℕ
  resetReason : Option String
  day1Photo : Option String
  dayVerification : DayVerification
deriving DecidableEq

/-- An error response body: its message and, when the route includes one,
the `verificationDate` field (outer `none` means the field is absent from
the response). -/
structure ApiError where
  message : String
  verificationDate : Option (Option ℕ)
deriving DecidableEq

/-- JavaScript truthiness of an optional string request field (absent and
empty string are falsy). -/
def strTruthy : Option String → Bool
  | some s => decide (s ≠ "")
  | none => false

/-- JavaScript `x || null` applied to an optional numeric field: 0 is
falsy and collapses to null. -/
def jsOrNull : Option ℚ → Option ℚ
  | some x => if x = 0 then none else some x
  | none => none

/-- POST /:id/day/:dayNumber/result, src/routes/student.js lines 183-216:
validate the day number, store the photo when it is day 1, then overwrite
that day entry with `{result: result-or-pending,
confidence: confidence || null, date: now}`. -/
def updateDayResult (s : StudentState) (dayNumber : ℕ) (result : Option VerifResult)
    (confidence : Option ℚ) (photo : Option String) (now : ℕ) :
    Except ApiError StudentState :=
  if 1 ≤ dayNumber ∧ dayNumber ≤ 6 then
    let s1 := if dayNumber = 1 ∧ strTruthy photo then { s with day1Photo := photo } else s
    let entry : DayEntry := ⟨result.getD VerifResult.pending, jsOrNull confidence, some now⟩
    Except.ok { s1 with dayVerification := setDay s1.dayVerification dayNumber entry }
  else
    Except.error ⟨"dayNumber must be 1-6", none⟩

/-- The day-key computation of the manual-verify route,
src/routes/student.js lines 377-384: a numeric `day` yields `dayN`, which
passes the later `/^day[1-6]$/` test exactly when 1 ≤ day ≤ 6; anything
else leaves the key null and the route falls through to the global
branch.  (A string `day` is accepted only when it already matches the
pattern, which the numeric encoding here covers.) -/
def dayKeyOf : Option ℕ → Option ℕ
  | some n => if 1 ≤ n ∧ n ≤ 6 then some n else none
  | none => none

/-- POST /:id/manual-verify, src/routes/student.js lines 361-450.  With a
valid day: guard on that day already being manually verified (message
only, no date in the response), write the day entry, save the day-1 photo
when applicable, then record the optional audit reason/notes.  Without a
valid day: guard on the global result (the response carries the existing
`manualVerificationDate`), set the global verification fields, record
reason/notes and optionally the day-1 photo.  An error models the route
returning before any save, so the stored record is untouched. -/
def manualVerify (s : StudentState) (reason notes photo : Option String)
    (day : Option ℕ) (now : ℕ) : Except ApiError StudentState :=
  match dayKeyOf day with
  | some n =>
      if (getDay s.dayVerification n).map DayEntry.result =
          some VerifResult.manually_verified then
        Except.error ⟨"Student is already manually verified for day" ++ toString n, none⟩
      else
        let s1 := { s with
          dayVerification :=
            setDay s.dayVerification n ⟨VerifResult.manually_verified, none, some now⟩ }
        let s2 := if n = 1 ∧ strTruthy photo then { s1 with day1Photo := photo } else s1
        let s3 := if strTruthy reason then
            { s2 with manualVerificationReason := reason.map String.trim } else s2
        let s4 := if strTruthy notes then
            { s3 with manualVerificationNotes := notes.map String.trim } else s3
        Except.ok s4
  | none =>
      if s.verificationResult = VerifResult.manually_verified then
        Except.error ⟨"Student is already manually verified", some s.manualVerificationDate⟩
      else
        let s1 := { s with
          verified := true,
          verificationResult := VerifResult.manually_verified,
          manuallyVerified := true,
          manualVerificationDate := some now }
        let s2 := if strTruthy reason then
            { s1 with manualVerificationReason := reason.map String.trim } else s1
        let s3 := if strTruthy notes then
            { s2 with manualVerificationNotes := notes.map String.trim } else s2
        let s4 := if strTruthy photo then { s3 with day1Photo := photo } else s3
        Except.ok s4

/-- POST /:id/reset-verification, src/routes/student.js lines 453-514:
guard on the result already pending, reset the global verification and
manual metadata fields, record the reset audit fields, and when
`clearDay1Photo` is truthy also delete the day-1 photo and overwrite the
day-1 entry with `{result: pending, date: now, confidence: null}`. -/
def resetVerification (s : StudentState) (reason : Option String)
    (clearDay1Photo : Bool) (now : ℕ) : Except ApiError StudentState :=
  if s.verificationResult = VerifResult.pending then
    Except.error ⟨"Student verification is already pending", none⟩
  else
    let s1 := { s with
      verified := false,
      verificationResult := VerifResult.pending,
      manuallyVerified := false,
      manualVerificationDate := none,
      manualVerificationReason := none,
      manualVerificationNotes := none,
      lastResetDate := some now }
    let s2 := if strTruthy reason then { s1 with resetReason := reason.map String.trim } else s1
    let s3 := if clearDay1Photo then
        { s2 with
          day1Photo := none,
          dayVerification := setDay s2.dayVerification 1 ⟨VerifResult.pending, none, some now⟩ }
      else s2
    Except.ok s3

/-- A day entry that has never been written. -/
def freshDay : DayEntry := ⟨VerifResult.pending, none, none⟩

/-- Six untouched day entries. -/
def freshDays : DayVerification := ⟨freshDay, freshDay, freshDay, freshDay, freshDay, freshDay⟩

/-- A freshly registered subject: everything pending, nothing recorded. -/
def freshStudent : StudentState :=
  ⟨false, VerifResult.pending, none, false, none, none, none, none, none, none, freshDays⟩

/-- A subject manually verified for day 2 only. -/
def mvDayStudent : StudentState :=
  { freshStudent with dayVerification :=
      { freshDays with day2 := ⟨VerifResult.manually_verified, none, some 4⟩ } }

/-- A subject manually verified at the global scope. -/
def mvGlobalStudent : StudentState :=
  { freshStudent with
    verified := true,
    verificationResult := VerifResult.manually_verified,
    manuallyVerified := true,
    manualVerificationDate := some 4 }

/-- A subject that passed automatic verification and has a day-1 record
and photo. -/
def doneStudent : StudentState :=
  { freshStudent with
    verified := true,
    verificationResult := VerifResult.success,
    verificationConfidence := some 87,
    day1Photo := some "img",
    dayVerification := { freshDays with day1 := ⟨VerifResult.success, some 87, some 3⟩ } }

lemma euclideanDistance_ok (c r : List ℝ) (h : c.length = r.length) :
    euclideanDistance c r =
      Except.ok (Real.sqrt (((c.zip r).map (fun p => (p.1 - p.2) ^ 2)).sum)) := by
  unfold euclideanDistance
  rw [if_pos h]

lemma euclideanDistance_error (c r : List ℝ) (h : ¬ c.length = r.length) :
    euclideanDistance c r = Except.error "Invalid descriptors for distance calculation" := by
  unfold euclideanDistance
  rw [if_neg h]

lemma foldl_stepMatch_fst (c : List ℝ) (t : ℝ) :
    ∀ (refs : List (List ℝ)) (st : Option ℝ × Bool),
      (List.foldl (stepMatch c t) st refs).1 = List.foldl (minStep c) st.1 refs := by
  intro refs
  induction refs with
  | nil => intro st; rfl
  | cons r rs ih =>
      intro st
      simp only [List.foldl_cons]
      rw [ih]
      congr 1
      cases h : euclideanDistance c r with
      | error e => simp [stepMatch, minStep, h]
      | ok d =>
          cases hst : st.1 with
          | none => simp [stepMatch, minStep, h, hst]
          | some b =>
              by_cases hlt : d < b
              · simp [stepMatch, minStep, h, hst, hlt, min_eq_right (le_of_lt hlt)]
              · have hbd : b ≤ d := le_of_not_lt hlt
                simp [stepMatch, minStep, h, hst, hlt, min_eq_left hbd]

lemma foldl_stepMatch_inv (c : List ℝ) (t : ℝ) :
    ∀ (refs : List (List ℝ)) (st : Option ℝ × Bool),
      MatchInv t st → MatchInv t (List.foldl (stepMatch c t) st refs) := by
  intro refs
  induction refs with
  | nil => intro st h; exact h
  | cons r rs ih =>
      intro st h
      simp only [List.foldl_cons]
      apply ih
      cases hd : euclideanDistance c r with
      | error e =>
          have hstep : stepMatch c t st r = st := by simp [stepMatch, hd]
          rw [hstep]; exact h
      | ok d =>
          cases hst : st.1 with
          | none =>
              have hstep : stepMatch c t st r = (some d, decide (d < t)) := by
                simp [stepMatch, hd, hst]
              rw [hstep]
              exact ⟨fun hnone => by simp at hnone, fun b hb => by
                simp only [Option.some.injEq] at hb
                rw [hb]⟩
          | some b0 =>
              by_cases hlt : d < b0
              · have hstep : stepMatch c t st r = (some d, decide (d < t)) := by
                  simp [stepMatch, hd, hst, hlt]
                rw [hstep]
                exact ⟨fun hnone => by simp at hnone, fun b hb => by
                  simp only [Option.some.injEq] at hb
                  rw [hb]⟩
              · have hstep : stepMatch c t st r = st := by
                  simp [stepMatch, hd, hst, hlt]
                rw [hstep]; exact h

lemma findBestMatch_spec (c : List ℝ) (refs : List (List ℝ)) (t : ℝ)
    (hne : refs ≠ []) :
    findBestMatch c refs t =
      match List.foldl (minStep c) none refs with
      | none => ⟨false, none, 0⟩
      | some b => ⟨decide (b < t), some b, max 0 ((1 - b) * 100)⟩ := by
  have hlen : ¬ refs.length = 0 := by
    simpa [List.length_eq_zero] using hne
  have h1 := foldl_stepMatch_fst c t refs (none, false)
  have h2 := foldl_stepMatch_inv c t refs (none, false)
    ⟨fun _ => rfl, fun b hb => by simp at hb⟩
  unfold findBestMatch
  rw [if_neg hlen]
  cases hfst : (List.foldl (stepMatch c t) (none, false) refs).1 with
  | none =>
      have hsnd : (List.foldl (stepMatch c t) (none, false) refs).2 = false :=
        h2.1 hfst
      rw [hfst] at h1
      rw [← h1]
      simp [hfst, hsnd]
  | some b =>
      have hsnd : (List.foldl (stepMatch c t) (none, false) refs).2 = decide (b < t) :=
        h2.2 b hfst
      rw [hfst] at h1
      rw [← h1]
      simp [hfst, hsnd]

lemma foldl_minStep_valid (c : List ℝ) :
    ∀ (refs : List (List ℝ)), (∀ r ∈ refs, r.length = c.length) → ∀ (b : ℝ),
      ∃ bb, List.foldl (minStep c) (some b) refs = some bb ∧ bb ≤ b ∧
        (bb = b ∨ ∃ r ∈ refs, euclideanDistance c r = Except.ok bb) ∧
        (∀ r ∈ refs, ∀ d, euclideanDistance c r = Except.ok d → bb ≤ d) := by
  intro refs
  induction refs with
  | nil =>
      intro _ b
      exact ⟨b, rfl, le_refl b, Or.inl rfl, fun r hr => absurd hr (List.not_mem_nil r)⟩
  | cons r rs ih =>
      intro hl b
      have hr : c.length = r.length := (hl r (List.mem_cons_self r rs)).symm
      have hok := euclideanDistance_ok c r hr
      have hstepr : minStep c (some b) r =
          some (min b (Real.sqrt (((c.zip r).map (fun p => (p.1 - p.2) ^ 2)).sum))) := by
        simp [minStep, hok]
      obtain ⟨bb, heq, hle, hatt, hlb⟩ :=
        ih (fun x hx => hl x (List.mem_cons_of_mem r hx))
          (min b (Real.sqrt (((c.zip r).map (fun p => (p.1 - p.2) ^ 2)).sum)))
      refine ⟨bb, ?_, ?_, ?_, ?_⟩
      · rw [List.foldl_cons, hstepr, heq]
      · exact le_trans hle (min_le_left _ _)
      · rcases hatt with hbb | ⟨r2, hr2, hd2⟩
        · rcases min_cases b (Real.sqrt (((c.zip r).map (fun p => (p.1 - p.2) ^ 2)).sum))
            with ⟨hmin, _⟩ | ⟨hmin, _⟩
          · exact Or.inl (hbb.trans hmin)
          · exact Or.inr ⟨r, List.mem_cons_self r rs, by rw [hok, hbb, hmin]⟩
        · exact Or.inr ⟨r2, List.mem_cons_of_mem r hr2, hd2⟩
      · intro r2 hr2 d hd2
        rcases List.mem_cons.mp hr2 with hcase | hcase
        · subst hcase
          rw [hok] at hd2
          have hdval : d = Real.sqrt (((c.zip r2).map (fun p => (p.1 - p.2) ^ 2)).sum) :=
            (Except.ok.inj hd2).symm
          rw [hdval]
          exact le_trans hle (min_le_right _ _)
        · exact hlb r2 hcase d hd2

lemma bestOf_valid (c : List ℝ) (refs : List (List ℝ)) (hne : refs ≠ [])
    (hl : ∀ r ∈ refs, r.length = c.length) :
    ∃ best, List.foldl (minStep c) none refs = some best ∧
      (∃ r ∈ refs, euclideanDistance c r = Except.ok best) ∧
      (∀ r ∈ refs, ∀ d, euclideanDistance c r = Except.ok d → best ≤ d) := by
  cases refs with
  | nil => exact absurd rfl hne
  | cons r rs =>
      have hr : c.length = r.length := (hl r (List.mem_cons_self r rs)).symm
      have hok := euclideanDistance_ok c r hr
      have hstepr : minStep c none r =
          some (Real.sqrt (((c.zip r).map (fun p => (p.1 - p.2) ^ 2)).sum)) := by
        simp [minStep, hok]
      obtain ⟨bb, heq, hle, hatt, hlb⟩ :=
        foldl_minStep_valid c rs (fun x hx => hl x (List.mem_cons_of_mem r hx))
          (Real.sqrt (((c.zip r).map (fun p => (p.1 - p.2) ^ 2)).sum))
      refine ⟨bb, ?_, ?_, ?_⟩
      · rw [List.foldl_cons, hstepr, heq]
      · rcases hatt with hbb | ⟨r2, hr2, hd2⟩
        · exact ⟨r, List.mem_cons_self r rs, by rw [hok, hbb]⟩
        · exact ⟨r2, List.mem_cons_of_mem r hr2, hd2⟩
      · intro r2 hr2 d hd2
        rcases List.mem_cons.mp hr2 with hcase | hcase
        · subst hcase
          rw [hok] at hd2
          have hdval : d = Real.sqrt (((c.zip r2).map (fun p => (p.1 - p.2) ^ 2)).sum) :=
            (Except.ok.inj hd2).symm
          rw [hdval]
          exact hle
        · exact hlb r2 hcase d hd2

lemma euclideanDistance_zero_zero : euclideanDistance [0] [(0 : ℝ)] = Except.ok 0 := by
  rw [euclideanDistance_ok [0] [(0 : ℝ)] rfl]
  norm_num [Real.sqrt_zero]

lemma setDay_day1 (dv : DayVerification) (n : ℕ) (e : DayEntry) (hj : ¬ n = 1) :
    (setDay dv n e).day1 = dv.day1 := by
  unfold setDay
  split_ifs <;> rfl

lemma setDay_day2 (dv : DayVerification) (n : ℕ) (e : DayEntry) (hj : ¬ n = 2) :
    (setDay dv n e).day2 = dv.day2 := by
  unfold setDay
  split_ifs <;> rfl

lemma setDay_day3 (dv : DayVerification) (n : ℕ) (e : DayEntry) (hj : ¬ n = 3) :
    (setDay dv n e).day3 = dv.day3 := by
  unfold setDay
  split_ifs <;> rfl

lemma setDay_day4 (dv : DayVerification) (n : ℕ) (e : DayEntry) (hj : ¬ n = 4) :
    (setDay dv n e).day4 = dv.day4 := by
  unfold setDay
  split_ifs <;> rfl

lemma setDay_day5 (dv : DayVerification) (n : ℕ) (e : DayEntry) (hj : ¬ n = 5) :
    (setDay dv n e).day5 = dv.day5 := by
  unfold setDay
  split_ifs <;> rfl

lemma setDay_day6 (dv : DayVerification) (n : ℕ) (e : DayEntry) (hj : ¬ n = 6) :
    (setDay dv n e).day6 = dv.day6 := by
  unfold setDay
  split_ifs <;> rfl

lemma getDay_setDay_ne (dv : DayVerification) (n d : ℕ) (e : DayEntry) (h : d ≠ n) :
    getDay (setDay dv n e) d = getDay dv d := by
  unfold getDay
  split_ifs with h1 h2 h3 h4 h5 h6
  · rw [setDay_day1 dv n e (by omega)]
  · rw [setDay_day2 dv n e (by omega)]
  · rw [setDay_day3 dv n e (by omega)]
  · rw [setDay_day4 dv n e (by omega)]
  · rw [setDay_day5 dv n e (by omega)]
  · rw [setDay_day6 dv n e (by omega)]
  · rfl

/-- C2: resolving against an empty reference set returns matched=false,
bestDistance=null and confidence=0 as a normal result, for every probe
and threshold. -/
theorem C2_empty_references (c : List ℝ) (t : ℝ) :
    findBestMatch c [] t = ⟨false, none, 0⟩ := by
  simp [findBestMatch]

/-- C1: for a non-empty reference set of the probe dimensionality, the
resolver computes the distance to each reference, takes the minimum as the
best distance, and matches exactly when that minimum is strictly below
the threshold (equality is a non-match). -/
theorem C1_best_distance_strict_threshold (c : List ℝ) (refs : List (List ℝ)) (t : ℝ)
    (hne : refs ≠ []) (hl : ∀ r ∈ refs, r.length = c.length) :
    ∃ best, (findBestMatch c refs t).distance = some best ∧
      (∃ r ∈ refs, euclideanDistance c r = Except.ok best) ∧
      (∀ r ∈ refs, ∀ d, euclideanDistance c r = Except.ok d → best ≤ d) ∧
      ((findBestMatch c refs t).matched = true ↔ best < t) := by
  obtain ⟨best, hb, hatt, hlb⟩ := bestOf_valid c refs hne hl
  have hspec := findBestMatch_spec c refs t hne
  rw [hb] at hspec
  refine ⟨best, ?_, hatt, hlb, ?_⟩
  · rw [hspec]
  · rw [hspec]
    simp

/-- Witness for C1 at probe [0], single reference [1], threshold 1: the
best distance is attained and compared strictly. -/
theorem C1_best_distance_strict_threshold_witness :
    ∃ best, (findBestMatch [0] [[1]] 1).distance = some best ∧
      (∃ r ∈ [[(1 : ℝ)]], euclideanDistance [0] r = Except.ok best) ∧
      (∀ r ∈ [[(1 : ℝ)]], ∀ d, euclideanDistance [0] r = Except.ok d → best ≤ d) ∧
      ((findBestMatch [0] [[1]] 1).matched = true ↔ best < 1) :=
  C1_best_distance_strict_threshold [0] [[1]] 1 (by simp)
    (by intro r hr; simp only [List.mem_singleton] at hr; subst hr; rfl)

/-- C5: for a non-empty reference set of the probe dimensionality the
confidence is exactly max(0, (1 - bestDistance) * 100): clamped at 0 from
below and not clamped above. -/
theorem C5_confidence_formula (c : List ℝ) (refs : List (List ℝ)) (t : ℝ)
    (hne : refs ≠ []) (hl : ∀ r ∈ refs, r.length = c.length) :
    ∃ best, (findBestMatch c refs t).distance = some best ∧
      (findBestMatch c refs t).confidence = max 0 ((1 - best) * 100) := by
  obtain ⟨best, hb, _, _⟩ := bestOf_valid c refs hne hl
  have hspec := findBestMatch_spec c refs t hne
  rw [hb] at hspec
  exact ⟨best, by rw [hspec], by rw [hspec]⟩

/-- Witness for C5 at probe [0], single reference [1], threshold 0.6. -/
theorem C5_confidence_formula_witness :
    ∃ best, (findBestMatch [0] [[1]] (6 / 10)).distance = some best ∧
      (findBestMatch [0] [[1]] (6 / 10)).confidence = max 0 ((1 - best) * 100) :=
  C5_confidence_formula [0] [[1]] (6 / 10) (by simp)
    (by intro r hr; simp only [List.mem_singleton] at hr; subst hr; rfl)

/-- C7: for fixed probe and references, matched is monotone in the
threshold: raising the threshold never turns a match into a non-match. -/
theorem C7_threshold_monotone (c : List ℝ) (refs : List (List ℝ)) (t1 t2 : ℝ)
    (hle : t1 ≤ t2) (hm : (findBestMatch c refs t1).matched = true) :
    (findBestMatch c refs t2).matched = true := by
  by_cases hne : refs = []
  · subst hne
    simp [findBestMatch] at hm
  · have h1 := findBestMatch_spec c refs t1 hne
    have h2 := findBestMatch_spec c refs t2 hne
    cases hb : List.foldl (minStep c) none refs with
    | none =>
        rw [hb] at h1
        rw [h1] at hm
        simp at hm
    | some b =>
        rw [hb] at h1 h2
        rw [h1] at hm
        rw [h2]
        simp only [decide_eq_true_eq] at hm ⊢
        exact lt_of_lt_of_le hm hle

/-- Witness for C7: a match at threshold 1/2 stays a match at threshold 1. -/
theorem C7_threshold_monotone_witness :
    (findBestMatch [0] [[0]] 1).matched = true := by
  apply C7_threshold_monotone [0] [[0]] (1 / 2) 1 (by norm_num)
  rw [findBestMatch_spec [0] [[0]] (1 / 2) (by simp)]
  have hfold : List.foldl (minStep [0]) none [[(0 : ℝ)]] = some 0 := by
    simp [minStep, euclideanDistance_zero_zero]
  rw [hfold]
  simp only [decide_eq_true_eq]
  norm_num

/-- C3 counterexample: a reference of the wrong dimensionality does not
fail the resolution; it is skipped and the remaining reference still
produces a successful match. -/
theorem C3_counterexample :
    findBestMatch [0] [[1, 2], [0]] (6 / 10) = ⟨true, some 0, 100⟩ := by
  have herr := euclideanDistance_error [0] [(1 : ℝ), 2] (by simp)
  unfold findBestMatch
  rw [if_neg (by simp)]
  simp only [List.foldl_cons, List.foldl_nil]
  have h1 : stepMatch [0] (6 / 10) (none, false) [1, 2] = (none, false) := by
    simp [stepMatch, herr]
  rw [h1]
  have h2 : stepMatch [0] (6 / 10) (none, false) [0] =
      (some 0, decide ((0 : ℝ) < 6 / 10)) := by
    simp [stepMatch, euclideanDistance_zero_zero]
  rw [h2]
  simp only [MatchResult.mk.injEq, decide_eq_true_eq]
  norm_num [max_def]

/-- C3 amended: the resolver catches the dimension-mismatch error of a
single reference and continues with the rest, so a bad reference anywhere
in the list leaves the result identical to resolving without it. -/
theorem C3_amended_skip_bad_reference (c : List ℝ) (t : ℝ)
    (refs1 refs2 : List (List ℝ)) (bad : List ℝ)
    (hbad : ¬ c.length = bad.length) :
    findBestMatch c (refs1 ++ bad :: refs2) t = findBestMatch c (refs1 ++ refs2) t := by
  have herr := euclideanDistance_error c bad hbad
  have hstep : ∀ st, stepMatch c t st bad = st := fun st => by simp [stepMatch, herr]
  by_cases hre : refs1 ++ refs2 = []
  · obtain ⟨h1, h2⟩ := List.append_eq_nil.mp hre
    subst h1
    subst h2
    simp only [List.nil_append]
    unfold findBestMatch
    rw [if_neg (by simp), if_pos (by simp)]
    simp only [List.foldl_cons, List.foldl_nil, hstep]
  · unfold findBestMatch
    rw [if_neg (by simp), if_neg (by simpa [List.length_eq_zero] using hre)]
    have hf : List.foldl (stepMatch c t) (none, false) (refs1 ++ bad :: refs2)
        = List.foldl (stepMatch c t) (none, false) (refs1 ++ refs2) := by
      rw [List.foldl_append, List.foldl_append, List.foldl_cons, hstep]
    rw [hf]

/-- Witness for the amended C3: skipping the mismatched reference [1,2]
gives the same result as resolving against [[0]] alone. -/
theorem C3_amended_skip_bad_reference_witness :
    findBestMatch [0] [[1, 2], [0]] (6 / 10) = findBestMatch [0] [[0]] (6 / 10) :=
  C3_amended_skip_bad_reference [0] (6 / 10) [] [[0]] [1, 2] (by simp)

/-- C4: with a 128-dimensional personal descriptor present, the route
resolves against exactly the singleton of that descriptor, for every
school record (any group contents and any status); without it the group
descriptors are used. -/
theorem C4_personal_descriptor_priority (captured fd : List ℝ) (school : School) (t : ℝ)
    (hfd : fd.length = 128) (hc : captured.length = 128) :
    verifyStudent captured (some fd) school t =
      Except.ok (findBestMatch captured [fd] t) ∧
    verifyStudent captured none school t =
      Except.ok (findBestMatch captured school.groupDescriptors t) := by
  constructor
  · have hlen : captured.length = fd.length := by rw [hc, hfd]
    have hok := euclideanDistance_ok captured fd hlen
    simp only [verifyStudent]
    rw [if_pos hfd, hok]
    unfold findBestMatch
    rw [if_neg (by simp)]
    simp only [List.foldl_cons, List.foldl_nil]
    simp [stepMatch, hok]
  · rfl

/-- Witness for C4 with 128-dimensional all-zero descriptors and a school
whose group set is non-empty and in error status. -/
theorem C4_personal_descriptor_priority_witness :
    verifyStudent (List.replicate 128 0) (some (List.replicate 128 0))
        ⟨[[1]], RefStatus.error⟩ (6 / 10) =
      Except.ok (findBestMatch (List.replicate 128 0) [List.replicate 128 0] (6 / 10)) ∧
    verifyStudent (List.replicate 128 0) none ⟨[[1]], RefStatus.error⟩ (6 / 10) =
      Except.ok (findBestMatch (List.replicate 128 0) [[1]] (6 / 10)) :=
  C4_personal_descriptor_priority (List.replicate 128 0) (List.replicate 128 0)
    ⟨[[1]], RefStatus.error⟩ (6 / 10) (by simp) (by simp)

/-- C6 counterexample: a negative threshold and an infinite threshold are
both used as supplied; the route neither validates positivity or
finiteness nor fails with InvalidThreshold. -/
theorem C6_counterexample :
    selectThreshold (JSValue.num (-1)) = JSValue.num (-1) ∧
    selectThreshold JSValue.inf = JSValue.inf := by
  constructor <;> rfl

/-- C6 amended: a supplied threshold is used exactly when it is a truthy
value of number type (any nonzero non-NaN number, including negative and
infinite ones); otherwise — absent, zero, NaN or non-number — the default
0.6 is silently substituted, with no failure path. -/
theorem C6_amended_truthy_number_used (v : JSValue) :
    (truthy v = true → isNumberType v = true → selectThreshold v = v) ∧
    ((truthy v = false ∨ isNumberType v = false) →
      selectThreshold v = JSValue.num (6 / 10)) := by
  constructor
  · intro h1 h2
    unfold selectThreshold
    rw [h1, h2]
    rfl
  · intro h
    unfold selectThreshold
    rcases h with h | h <;> rw [h] <;> simp

/-- Witness for the amended C6: a truthy number is used as supplied, a
null threshold falls back to the default 0.6. -/
theorem C6_amended_truthy_number_used_witness :
    selectThreshold (JSValue.num 2) = JSValue.num 2 ∧
    selectThreshold JSValue.null = JSValue.num (6 / 10) :=
  ⟨(C6_amended_truthy_number_used (JSValue.num 2)).1 (by decide) (by decide),
   (C6_amended_truthy_number_used JSValue.null).2 (Or.inl (by decide))⟩

/-- Target state of the C8 counterexample: day 3 manually verified and
the shared audit reason overwritten. -/
def auditTarget : StudentState :=
  { freshStudent with
    dayVerification := setDay freshDays 3 ⟨VerifResult.manually_verified, none, some 7⟩,
    manualVerificationReason := some ("room change".trim) }

/-- C8 counterexample: a day-scoped manual verification (a write into
perDayVerification[day3]) with a reason supplied also overwrites the
subject-level manualVerificationReason, which the data model counts among
the globalVerification manual metadata — so a day write can touch the
global scope. -/
theorem C8_counterexample :
    manualVerify freshStudent (some "room change") none none (some 3) 7 =
      Except.ok auditTarget ∧
    freshStudent.manualVerificationReason = none ∧
    auditTarget.manualVerificationReason ≠ none := by
  refine ⟨rfl, rfl, by simp [auditTarget]⟩

/-- C8 amended: for a valid day 1..6, both day-write operations (the
day-result route and day-scoped manual verification) leave every other
day entry and the global verdict fields (verified, verificationResult,
verificationConfidence, manuallyVerified, manualVerificationDate)
unchanged; the day-result route additionally leaves the audit
reason/notes untouched, while day-scoped manual verification may
overwrite those two audit fields. -/
theorem C8_amended_day_write_frame (s : StudentState) (result : Option VerifResult)
    (confidence : Option ℚ) (reason notes photo : Option String) (now day d : ℕ)
    (hd1 : 1 ≤ day) (hd6 : day ≤ 6) :
    (∀ s2, updateDayResult s day result confidence photo now = Except.ok s2 → d ≠ day →
      getDay s2.dayVerification d = getDay s.dayVerification d ∧
      s2.verified = s.verified ∧
      s2.verificationResult = s.verificationResult ∧
      s2.verificationConfidence = s.verificationConfidence ∧
      s2.manuallyVerified = s.manuallyVerified ∧
      s2.manualVerificationDate = s.manualVerificationDate ∧
      s2.manualVerificationReason = s.manualVerificationReason ∧
      s2.manualVerificationNotes = s.manualVerificationNotes) ∧
    (∀ s2, manualVerify s reason notes photo (some day) now = Except.ok s2 → d ≠ day →
      getDay s2.dayVerification d = getDay s.dayVerification d ∧
      s2.verified = s.verified ∧
      s2.verificationResult = s.verificationResult ∧
      s2.verificationConfidence = s.verificationConfidence ∧
      s2.manuallyVerified = s.manuallyVerified ∧
      s2.manualVerificationDate = s.manualVerificationDate) := by
  have hv : 1 ≤ day ∧ day ≤ 6 := ⟨hd1, hd6⟩
  constructor
  · intro s2 h hne
    unfold updateDayResult at h
    rw [if_pos hv] at h
    simp only [] at h
    split_ifs at h with hp
    · injection h with h2
      subst h2
      exact ⟨getDay_setDay_ne _ _ _ _ hne, rfl, rfl, rfl, rfl, rfl, rfl, rfl⟩
    · injection h with h2
      subst h2
      exact ⟨getDay_setDay_ne _ _ _ _ hne, rfl, rfl, rfl, rfl, rfl, rfl, rfl⟩
  · intro s2 h hne
    have hdk : dayKeyOf (some day) = some day := by simp [dayKeyOf, hv]
    unfold manualVerify at h
    rw [hdk] at h
    simp only [] at h
    by_cases hg : (getDay s.dayVerification day).map DayEntry.result =
        some VerifResult.manually_verified
    · rw [if_pos hg] at h
      exact absurd h (by simp)
    · rw [if_neg hg] at h
      injection h with h2
      subst h2
      refine ⟨?_, ?_, ?_, ?_, ?_, ?_⟩
      · split_ifs <;> exact getDay_setDay_ne _ _ _ _ hne
      all_goals split_ifs <;> rfl

/-- Witness for the amended C8: a day-3 write on a fresh subject leaves
day 1 and the global verdict fields unchanged. -/
theorem C8_amended_day_write_frame_witness :
    (∀ s2, updateDayResult freshStudent 3 none none none 7 = Except.ok s2 → 1 ≠ 3 →
      getDay s2.dayVerification 1 = getDay freshStudent.dayVerification 1 ∧
      s2.verified = freshStudent.verified ∧
      s2.verificationResult = freshStudent.verificationResult ∧
      s2.verificationConfidence = freshStudent.verificationConfidence ∧
      s2.manuallyVerified = freshStudent.manuallyVerified ∧
      s2.manualVerificationDate = freshStudent.manualVerificationDate ∧
      s2.manualVerificationReason = freshStudent.manualVerificationReason ∧
      s2.manualVerificationNotes = freshStudent.manualVerificationNotes) ∧
    (∀ s2, manualVerify freshStudent none none none (some 3) 7 = Except.ok s2 → 1 ≠ 3 →
      getDay s2.dayVerification 1 = getDay freshStudent.dayVerification 1 ∧
      s2.verified = freshStudent.verified ∧
      s2.verificationResult = freshStudent.verificationResult ∧
      s2.verificationConfidence = freshStudent.verificationConfidence ∧
      s2.manuallyVerified = freshStudent.manuallyVerified ∧
      s2.manualVerificationDate = freshStudent.manualVerificationDate) :=
  C8_amended_day_write_frame freshStudent none none none none none 7 3 1
    (by decide) (by decide)

/-- C9 counterexample: a day-scope manual-verify on an already manually
verified day fails, but its response carries no verificationDate (outer
none), unlike the global branch — refuting the claim that the failure
response always includes the existing verification date. -/
theorem C9_counterexample :
    manualVerify mvDayStudent none none none (some 2) 5 =
      Except.error ⟨"Student is already manually verified for day" ++ toString 2, none⟩ := by
  rfl

/-- C9 amended: manual-verify on a scope already manually_verified fails
and (because the route returns before saving) leaves the stored subject
unchanged; the global-scope failure response includes the existing
manualVerificationDate, while the day-scope failure response carries only
a message and no date. -/
theorem C9_amended_already_verified_guard (s : StudentState)
    (reason notes photo : Option String) (day now : ℕ) :
    (s.verificationResult = VerifResult.manually_verified →
      manualVerify s reason notes photo none now =
        Except.error ⟨"Student is already manually verified",
          some s.manualVerificationDate⟩) ∧
    (1 ≤ day → day ≤ 6 →
      (getDay s.dayVerification day).map DayEntry.result =
        some VerifResult.manually_verified →
      manualVerify s reason notes photo (some day) now =
        Except.error ⟨"Student is already manually verified for day" ++ toString day,
          none⟩) := by
  constructor
  · intro h
    unfold manualVerify
    simp only [dayKeyOf]
    rw [if_pos h]
  · intro h1 h6 hg
    have hdk : dayKeyOf (some day) = some day := by simp [dayKeyOf, h1, h6]
    unfold manualVerify
    rw [hdk]
    simp only []
    rw [if_pos hg]

/-- Witness for the amended C9 at both scopes, with concrete already
verified subjects. -/
theorem C9_amended_already_verified_guard_witness :
    manualVerify mvGlobalStudent none none none none 9 =
      Except.error ⟨"Student is already manually verified", some (some 4)⟩ ∧
    manualVerify mvDayStudent none none none (some 2) 9 =
      Except.error ⟨"Student is already manually verified for day" ++ toString 2,
        none⟩ := by
  constructor
  · exact (C9_amended_already_verified_guard mvGlobalStudent none none none 0 9).1 rfl
  · exact (C9_amended_already_verified_guard mvDayStudent none none none 2 9).2
      (by decide) (by decide) rfl

/-- C10: a global reset with clearDay1Photo set succeeds on any
non-pending subject, and besides resetting the global scope it deletes
the day-1 photo and overwrites the day-1 entry with
result pending, confidence null, date now. -/
theorem C10_reset_clears_day1 (s : StudentState) (reason : Option String) (now : ℕ)
    (h : ¬ s.verificationResult = VerifResult.pending) :
    ∃ s2, resetVerification s reason true now = Except.ok s2 ∧
      s2.day1Photo = none ∧
      getDay s2.dayVerification 1 = some ⟨VerifResult.pending, none, some now⟩ ∧
      s2.verificationResult = VerifResult.pending ∧
      s2.manuallyVerified = false := by
  unfold resetVerification
  rw [if_neg h]
  simp only []
  refine ⟨_, rfl, ?_, ?_, ?_, ?_⟩
  all_goals split_ifs <;> rfl

/-- Witness for C10 on a concrete successfully verified subject with a
stored day-1 photo. -/
theorem C10_reset_clears_day1_witness :
    ∃ s2, resetVerification doneStudent none true 9 = Except.ok s2 ∧
      s2.day1Photo = none ∧
      getDay s2.dayVerification 1 = some ⟨VerifResult.pending, none, some 9⟩ ∧
      s2.verificationResult = VerifResult.pending ∧
      s2.manuallyVerified = false :=
  C10_reset_clears_day1 doneStudent none 9 (by decide)

end FaceVerification
